import Mathlib

/-!
Formal model of the trifinger_cameras calibration and log-viewer scripts
(scripts/calibrate_cameras.py and scripts/tricamera_log_viewer.py).

Pure data transformations are embedded as executable Lean functions over
exact number types (rationals stand in for floating-point values where the
code performs no arithmetic on them, and real numbers where trigonometry is
involved).  External effects (file writes, display windows, key presses)
are represented by explicit result values and input streams.
-/

/-- A persisted matrix block: shape plus row-major flat data, as written by
the calibration scripts (keys rows, cols, data). -/
structure MatrixBlock (α : Type) where
  rows : ℕ
  cols : ℕ
  data : List α
deriving DecidableEq

/-- Split a flat list into rows rows of cols elements each, row-major;
the reshaping underlying numpy reshape for a 2-d target. -/
def reshapeRows {α : Type} : ℕ → ℕ → List α → List (List α)
  | 0, _, _ => []
  | r + 1, c, l => l.take c :: reshapeRows r c (l.drop c)

/-- The decoder from calibrate_cameras.py (function config_matrix inside
calibrate_extrinsic_parameters): np.array of the data reshaped to
(rows, cols).  numpy raises when the element count does not match the
requested shape, modelled here as none. -/
def config_matrix {α : Type} (b : MatrixBlock α) : Option (List (List α)) :=
  if b.data.length = b.rows * b.cols then
    some (reshapeRows b.rows b.cols b.data)
  else
    none

/-- A matrix block built the way calibrate_intrinsic_parameters and
calibrate_extrinsic_parameters build theirs: the declared shape together
with the row-major flattening of the matrix. -/
def encode_block {α : Type} (r c : ℕ) (m : List (List α)) : MatrixBlock α :=
  ⟨r, c, m.flatten⟩

/-- Lookup in an insertion-ordered dictionary (Python dict), modelled as an
association list. -/
def dlookup {α : Type} : List (String × α) → String → Option α
  | [], _ => none
  | (key, v) :: rest, k => if key = k then some v else dlookup rest k

/-- Key assignment on an insertion-ordered dictionary (Python
d[k] = v): replaces the value if the key exists, appends otherwise. -/
def dictSet {α : Type} : List (String × α) → String → α → List (String × α)
  | [], k, v => [(k, v)]
  | (key, w) :: rest, k, v =>
    if key = k then (k, v) :: rest else (key, w) :: dictSet rest k v

/-- The record persisted by calibrate_intrinsic_parameters: a dict holding
the camera matrix as a 3x3 block and the distortion coefficients as a 1x5
block, built from the flat value lists returned by the board handler. -/
def intrinsic_record (cm d : List ℚ) : List (String × MatrixBlock ℚ) :=
  [(("camera_matrix"), ⟨3, 3, cm⟩), (("distortion_coefficients"), ⟨1, 5, d⟩)]

/-- Observable outcome of one run of calibrate_intrinsic_parameters:
the file contents written, the value returned by the function, and the
numeric values it logs or prints. -/
structure IntrinsicRunResult where
  written : List (List (String × MatrixBlock ℚ))
  returned : Option ℚ
  logged : List ℚ
deriving DecidableEq

set_option linter.unusedVariables false in
/-- calibrate_intrinsic_parameters (calibrate_cameras.py, lines 14-46),
given the triple the board handler returns: it builds the camera_info dict
from the camera matrix and distortion coefficients, dumps it to the output
file, and ends with a bare return; the reprojection error is bound but
never used afterwards - nothing is printed and None is returned. -/
def calibrate_intrinsic_parameters (cm d : List ℚ) (error : ℚ) :
    IntrinsicRunResult :=
  ⟨[intrinsic_record cm d], none, []⟩

/-- Errors of the intrinsic stage, following the spec's taxonomy. -/
inductive CalibError
  | insufficientViews
deriving DecidableEq

/-- Modelled from the spec: the CharucoBoardHandler (its module is not part
of the sources here) detects board corners per image, discards images where
detection fails, and solves the multi-view intrinsic system; with zero
usable detections the stage fails with InsufficientViews, otherwise it
yields the camera matrix, distortion coefficients and reprojection error.
Detection outcomes per image are abstracted as booleans and the solved
triple as a parameter. -/
def handler_calibrate (detections : List Bool)
    (solution : List ℚ × List ℚ × ℚ) :
    Except CalibError (List ℚ × List ℚ × ℚ) :=
  if detections.count true = 0 then
    Except.error CalibError.insufficientViews
  else
    Except.ok solution

/-- One invocation of the intrinsic stage: the handler runs first; only on
success does calibrate_intrinsic_parameters build and persist the record
(the file write in the source happens after handler.calibrate returns). -/
def calibrate_intrinsic_run (detections : List Bool)
    (solution : List ℚ × List ℚ × ℚ) :
    Except CalibError IntrinsicRunResult :=
  match handler_calibrate detections solution with
  | Except.error e => Except.error e
  | Except.ok (cm, d, err) => Except.ok (calibrate_intrinsic_parameters cm d err)

/-- Calibration files written by a run: none when the run fails. -/
def files_written :
    Except CalibError IntrinsicRunResult →
      List (List (String × MatrixBlock ℚ))
  | Except.error _ => []
  | Except.ok res => res.written

/-- The 8 corner points of the verification cube (calibrate_cameras.py,
lines 103-118): each unit-cube vertex scaled by 0.04. -/
def new_object_points : List (Fin 3 → ℚ) :=
  [[0, 0, 0], [0, 1, 0], [1, 0, 0], [1, 1, 0],
   [0, 0, 1], [0, 1, 1], [1, 0, 1], [1, 1, 1]].map
    (fun p (i : Fin 3) => p.getD i.val 0 * (4 / 100))

/-- The 12 cube edges as index pairs into new_object_points
(calibrate_cameras.py, lines 119-132). -/
def point_pairs : List (ℕ × ℕ) :=
  [(0, 4), (1, 5), (2, 6), (3, 7), (0, 1), (0, 2),
   (1, 3), (2, 3), (4, 5), (4, 6), (5, 7), (6, 7)]

/-- Two points differ in exactly one of their three coordinates. -/
def differs_in_exactly_one (p q : Fin 3 → ℚ) : Prop :=
  (p 0 ≠ q 0 ∧ p 1 = q 1 ∧ p 2 = q 2) ∨
  (p 0 = q 0 ∧ p 1 ≠ q 1 ∧ p 2 = q 2) ∨
  (p 0 = q 0 ∧ p 1 = q 1 ∧ p 2 ≠ q 2)

/-- One camera's entry in a logged frame set: an (opaque) image and a
timestamp in seconds. -/
structure CameraObservation where
  image : ℕ
  timestamp : ℚ
deriving DecidableEq

/-- One logged frame set of the three-camera rig; the scripts index the
per-camera entries as cameras[0], cameras[1], cameras[2]. -/
structure TriCameraObservation where
  camera0 : CameraObservation
  camera1 : CameraObservation
  camera2 : CameraObservation
deriving DecidableEq

/-- Errors the log viewer can raise: IndexError from data[0] on an empty
log, ZeroDivisionError from 1000 / interval. -/
inductive ViewerError
  | indexError
  | zeroDivisionError
deriving DecidableEq

/-- What a successful viewer run shows the operator: the printed frame
count, interval in ms and frame rate, and the frame sets displayed, in
display order. -/
structure ViewerOutput where
  frames : ℕ
  interval_ms : ℤ
  fps : ℚ
  displayed : List TriCameraObservation
deriving DecidableEq

/-- Python int() applied to a rational: truncation toward zero. -/
def int_trunc (x : ℚ) : ℤ :=
  if 0 ≤ x then ⌊x⌋ else -⌊-x⌋

/-- The key codes on which the display loop stops: ord of q and ESC. -/
def quit_keys : List ℤ := [113, 27]

/-- The display loop of tricamera_log_viewer.py (lines 34-50): each frame
set is shown, then one waitKey result is consumed (-1 when no key was
pressed); a quit key stops the loop after the current frame. -/
def display_loop : List TriCameraObservation → List ℤ →
    List TriCameraObservation
  | [], _ => []
  | obs :: rest, keys =>
    obs :: (if keys.headD (-1) ∈ quit_keys then []
            else display_loop rest keys.tail)

/-- The playback interval in seconds computed at tricamera_log_viewer.py
lines 22-24: (last timestamp - first timestamp) / frame count, both
timestamps taken from camera 0 of their frame set. -/
def viewer_interval (first : TriCameraObservation)
    (rest : List TriCameraObservation) : ℚ :=
  ((rest.getLastD first).camera0.timestamp - first.camera0.timestamp) /
    ((first :: rest).length : ℚ)

/-- main of tricamera_log_viewer.py given the log contents and the stream
of waitKey results: reading data[0] on an empty log raises IndexError;
printing 1000 / interval raises ZeroDivisionError when the interval
truncated to integer milliseconds is 0 (both before any frame is shown);
otherwise the count, interval and rate are printed and the display loop
runs. -/
def tricamera_log_viewer (data : List TriCameraObservation)
    (keys : List ℤ) : Except ViewerError ViewerOutput :=
  match data with
  | [] => Except.error ViewerError.indexError
  | first :: rest =>
    if int_trunc (viewer_interval first rest * 1000) = 0 then
      Except.error ViewerError.zeroDivisionError
    else
      Except.ok ⟨(first :: rest).length,
        int_trunc (viewer_interval first rest * 1000),
        1000 / ((int_trunc (viewer_interval first rest * 1000) : ℤ) : ℚ),
        display_loop (first :: rest) keys⟩

/-- The skew-symmetric cross-product matrix of the axis (x, y, z). -/
def skewK (x y z : ℝ) : Matrix (Fin 3) (Fin 3) ℝ :=
  !![0, -z, y; z, 0, -x; -y, x, 0]

/-- The Rodrigues rotation matrix I + s K + (1 - c) K^2 for sine s and
cosine c of the rotation angle and unit axis (x, y, z). -/
def rodriguesR (s c x y z : ℝ) : Matrix (Fin 3) (Fin 3) ℝ :=
  1 + s • skewK x y z + (1 - c) • (skewK x y z * skewK x y z)

/-- Modelled from the spec: utils.rodrigues_to_matrix (imported by
calibrate_cameras.py from trifinger_cameras.utils, whose module is not
among the sources here) converts an axis-angle rotation vector to a
rotation matrix by the standard Rodrigues formula
R = I + sin(angle) K + (1 - cos(angle)) K^2 with K the skew matrix of the
unit axis and the angle the vector magnitude; a vector of magnitude 0
yields the identity. -/
noncomputable def rodrigues_to_matrix (r : Fin 3 → ℝ) :
    Matrix (Fin 3) (Fin 3) ℝ :=
  if Real.sqrt (r 0 ^ 2 + r 1 ^ 2 + r 2 ^ 2) = 0 then 1
  else
    rodriguesR (Real.sin (Real.sqrt (r 0 ^ 2 + r 1 ^ 2 + r 2 ^ 2)))
      (Real.cos (Real.sqrt (r 0 ^ 2 + r 1 ^ 2 + r 2 ^ 2)))
      (r 0 / Real.sqrt (r 0 ^ 2 + r 1 ^ 2 + r 2 ^ 2))
      (r 1 / Real.sqrt (r 0 ^ 2 + r 1 ^ 2 + r 2 ^ 2))
      (r 2 / Real.sqrt (r 0 ^ 2 + r 1 ^ 2 + r 2 ^ 2))

/-- Modelled from the spec: the 4x4 projection matrix assembled by
calibrate_extrinsic_parameters (calibrate_cameras.py, lines 85-88, spec
section 4.3 step 4): rows 0-2, cols 0-2 hold the rotation matrix, rows
0-2 of col 3 hold the translation vector, row 3 is [0, 0, 0, 1] (the row
and corner left by the homogeneous matrix from utils.rodrigues_to_matrix
and the explicit [3, 3] = 1 assignment). -/
def assemble_projection (R : Matrix (Fin 3) (Fin 3) ℝ) (t : Fin 3 → ℝ) :
    Matrix (Fin 4) (Fin 4) ℝ :=
  !![R 0 0, R 0 1, R 0 2, t 0;
     R 1 0, R 1 1, R 1 2, t 1;
     R 2 0, R 2 1, R 2 2, t 2;
     0, 0, 0, 1]

/-- The projection matrix computed by calibrate_extrinsic_parameters from
the board pose (rvec, tvec) returned by the board handler. -/
noncomputable def projection_matrix (rvec tvec : Fin 3 → ℝ) :
    Matrix (Fin 4) (Fin 4) ℝ :=
  assemble_projection (rodrigues_to_matrix rvec) tvec

/-- Row-major flattening of a 4x4 matrix (numpy flatten), as used to build
the data entry of the projection_matrix block. -/
def matFlatten4 (P : Matrix (Fin 4) (Fin 4) ℝ) : List ℝ :=
  [P 0 0, P 0 1, P 0 2, P 0 3,
   P 1 0, P 1 1, P 1 2, P 1 3,
   P 2 0, P 2 1, P 2 2, P 2 3,
   P 3 0, P 3 1, P 3 2, P 3 3]

/-- The record written by calibrate_extrinsic_parameters (lines 90-100):
the loaded calibration dict with the projection_matrix key set to the 4x4
block; every other entry of the dict is carried over untouched. -/
noncomputable def calibrate_extrinsic_record
    (calibration_data : List (String × MatrixBlock ℝ))
    (rvec tvec : Fin 3 → ℝ) : List (String × MatrixBlock ℝ) :=
  dictSet calibration_data ("projection_matrix")
    ⟨4, 4, matFlatten4 (projection_matrix rvec tvec)⟩

lemma reshapeRows_length {α : Type} (r c : ℕ) (l : List α) :
    (reshapeRows r c l).length = r := by
  induction r generalizing l with
  | zero => rfl
  | succ r ih => simp [reshapeRows, ih]

lemma reshapeRows_mem_length {α : Type} (r c : ℕ) (l : List α)
    (hl : l.length = r * c) : ∀ row ∈ reshapeRows r c l, row.length = c := by
  induction r generalizing l with
  | zero => simp [reshapeRows]
  | succ r ih =>
    intro row hrow
    rcases (by simpa [reshapeRows] using hrow :
        row = l.take c ∨ row ∈ reshapeRows r c (l.drop c)) with h | h
    · subst h
      rw [List.length_take]
      have hc : c ≤ l.length := by
        rw [hl, Nat.succ_mul]
        exact Nat.le_add_left c (r * c)
      omega
    · refine ih (l.drop c) ?_ row h
      rw [List.length_drop, hl, Nat.succ_mul]
      simp

lemma reshapeRows_flatten {α : Type} (r c : ℕ) (l : List α)
    (hl : l.length = r * c) : (reshapeRows r c l).flatten = l := by
  induction r generalizing l with
  | zero =>
    have : l = [] := List.length_eq_zero.mp (by omega)
    simp [reshapeRows, this]
  | succ r ih =>
    have hdrop : (l.drop c).length = r * c := by
      rw [List.length_drop, hl, Nat.succ_mul]
      simp
    simp [reshapeRows, ih (l.drop c) hdrop]

lemma flatten_length_of_rows {α : Type} (c : ℕ) (m : List (List α))
    (hc : ∀ row ∈ m, row.length = c) : m.flatten.length = m.length * c := by
  induction m with
  | nil => simp
  | cons row rest ih =>
    have hr : row.length = c := hc row (by simp)
    have hrest := ih (fun row h => hc row (by simp [h]))
    simp [hr, hrest, Nat.succ_mul]
    ring

lemma reshapeRows_of_flatten {α : Type} (c : ℕ) (m : List (List α))
    (hc : ∀ row ∈ m, row.length = c) :
    reshapeRows m.length c m.flatten = m := by
  induction m with
  | nil => rfl
  | cons row rest ih =>
    have hr : row.length = c := hc row (by simp)
    have hrest := ih (fun row h => hc row (by simp [h]))
    simp only [List.length_cons, reshapeRows, List.flatten_cons]
    rw [List.take_left' hr, List.drop_left' hr, hrest]

/-- C1: matrix codec round-trip.  For every shape (r, c) and every matrix m
of that shape, decoding (config_matrix) the block built the way the
calibration scripts build their blocks (rows r, cols c, data the row-major
flattening of m) yields m back, element for element. -/
theorem config_matrix_encode_roundtrip (r c : ℕ) (m : List (List ℚ))
    (hr : m.length = r) (hc : ∀ row ∈ m, row.length = c) :
    config_matrix (encode_block r c m) = some m := by
  subst hr
  have hlen : m.flatten.length = m.length * c := flatten_length_of_rows c m hc
  simp only [config_matrix, encode_block, hlen, if_true, reduceIte]
  rw [reshapeRows_of_flatten c m hc]

/-- Witness for C1 at the concrete 2x2 matrix [[1,2],[3,4]]. -/
theorem config_matrix_encode_roundtrip_witness :
    config_matrix (encode_block 2 2 [[(1 : ℚ), 2], [3, 4]]) =
      some [[(1 : ℚ), 2], [3, 4]] :=
  config_matrix_encode_roundtrip 2 2 [[(1 : ℚ), 2], [3, 4]] rfl (by decide)

/-- C4: decode shape check.  Decoding fails exactly when the data length
differs from rows * cols; when it matches, decoding succeeds and returns a
rows-by-cols matrix whose row-major flattening is the original data. -/
theorem config_matrix_shape_check (b : MatrixBlock ℚ) :
    (b.data.length ≠ b.rows * b.cols → config_matrix b = none) ∧
    (b.data.length = b.rows * b.cols →
      ∃ m, config_matrix b = some m ∧ m.length = b.rows ∧
        (∀ row ∈ m, row.length = b.cols) ∧ m.flatten = b.data) := by
  constructor
  · intro h
    simp [config_matrix, h]
  · intro h
    exact ⟨reshapeRows b.rows b.cols b.data, by simp [config_matrix, h],
      reshapeRows_length b.rows b.cols b.data,
      reshapeRows_mem_length b.rows b.cols b.data h,
      reshapeRows_flatten b.rows b.cols b.data h⟩

/-- Witness for C4: a 3x3 block with 8 data values fails to decode, and a
2x2 block with 4 values decodes to a 2x2 matrix. -/
theorem config_matrix_shape_check_witness :
    config_matrix (⟨3, 3, [1, 2, 3, 4, 5, 6, 7, 8]⟩ : MatrixBlock ℚ) = none ∧
    ∃ m, config_matrix (⟨2, 2, [(5 : ℚ), 6, 7, 8]⟩ : MatrixBlock ℚ) = some m ∧
      m.length = 2 ∧ (∀ row ∈ m, row.length = 2) ∧ m.flatten = [5, 6, 7, 8] :=
  ⟨(config_matrix_shape_check ⟨3, 3, [1, 2, 3, 4, 5, 6, 7, 8]⟩).1 (by decide),
   (config_matrix_shape_check ⟨2, 2, [(5 : ℚ), 6, 7, 8]⟩).2 (by decide)⟩

lemma dlookup_dictSet_self {α : Type} (l : List (String × α)) (k : String)
    (v : α) : dlookup (dictSet l k v) k = some v := by
  induction l with
  | nil => simp [dictSet, dlookup]
  | cons p rest ih =>
    obtain ⟨key, w⟩ := p
    by_cases h : key = k <;> simp [dictSet, dlookup, h, ih]

lemma dlookup_dictSet_ne {α : Type} (l : List (String × α)) (k k' : String)
    (v : α) (h : k' ≠ k) : dlookup (dictSet l k v) k' = dlookup l k' := by
  induction l with
  | nil => simp [dictSet, dlookup, Ne.symm h]
  | cons p rest ih =>
    obtain ⟨key, w⟩ := p
    by_cases hkey : key = k
    · subst hkey
      simp [dictSet, dlookup, Ne.symm h]
    · simp [dictSet, dlookup, hkey, ih]

/-- C5 counterexample: at a concrete successful run (identity-like camera
matrix, zero distortion, reprojection error 1/2) the claim that the
reprojection error is surfaced to the caller is false: the function returns
None rather than the error, and logs nothing. -/
theorem reprojection_error_not_surfaced :
    ¬ ((calibrate_intrinsic_parameters [600, 0, 320, 0, 600, 240, 0, 0, 1]
          [0, 0, 0, 0, 0] (1 / 2)).returned = some (1 / 2) ∨
       (1 / 2 : ℚ) ∈ (calibrate_intrinsic_parameters
          [600, 0, 320, 0, 600, 240, 0, 0, 1]
          [0, 0, 0, 0, 0] (1 / 2)).logged) := by
  decide

/-- C5 (amended): the reprojection error obtained from the board handler is
discarded by calibrate_intrinsic_parameters: the function returns None,
logs nothing, persists only the camera matrix and distortion coefficients,
and its entire observable outcome is independent of the error value. -/
theorem reprojection_error_discarded (cm d : List ℚ) (e : ℚ) :
    (calibrate_intrinsic_parameters cm d e).returned = none ∧
    (calibrate_intrinsic_parameters cm d e).logged = [] ∧
    (calibrate_intrinsic_parameters cm d e).written = [intrinsic_record cm d] ∧
    calibrate_intrinsic_parameters cm d e =
      calibrate_intrinsic_parameters cm d 0 :=
  ⟨rfl, rfl, rfl, rfl⟩

/-- C6: with zero usable detections the intrinsic stage fails with
InsufficientViews and writes no calibration file. -/
theorem calibrate_intrinsic_insufficient_views (detections : List Bool)
    (solution : List ℚ × List ℚ × ℚ)
    (h : detections.count true = 0) :
    calibrate_intrinsic_run detections solution =
      Except.error CalibError.insufficientViews ∧
    files_written (calibrate_intrinsic_run detections solution) = [] := by
  simp [calibrate_intrinsic_run, handler_calibrate, h, files_written]

/-- Witness for C6: two images, both without a usable detection. -/
theorem calibrate_intrinsic_insufficient_views_witness :
    calibrate_intrinsic_run [false, false]
        ([600, 0, 320, 0, 600, 240, 0, 0, 1], [0, 0, 0, 0, 0], 0) =
      Except.error CalibError.insufficientViews ∧
    files_written (calibrate_intrinsic_run [false, false]
        ([600, 0, 320, 0, 600, 240, 0, 0, 1], [0, 0, 0, 0, 0], 0)) = [] :=
  calibrate_intrinsic_insufficient_views [false, false]
    ([600, 0, 320, 0, 600, 240, 0, 0, 1], [0, 0, 0, 0, 0], 0) (by decide)

set_option maxHeartbeats 1000000 in
/-- C9: the reference shape is a fixed constant: exactly 8 points, each a
unit-cube vertex scaled by 0.04 (so every coordinate is 0 or 0.04), and
exactly 12 edges whose endpoint indices are in range and which connect
vertices differing in exactly one coordinate, by exactly one board square
(0.04) in that coordinate. -/
theorem reference_shape_cube :
    new_object_points.length = 8 ∧ point_pairs.length = 12 ∧
    (∀ p ∈ new_object_points, ∀ i : Fin 3, p i = 0 ∨ p i = 4 / 100) ∧
    (∀ pr ∈ point_pairs, pr.1 < 8 ∧ pr.2 < 8 ∧
      differs_in_exactly_one (new_object_points.getD pr.1 (fun _ => 0))
        (new_object_points.getD pr.2 (fun _ => 0)) ∧
      ∀ i : Fin 3,
        new_object_points.getD pr.1 (fun _ => 0) i =
            new_object_points.getD pr.2 (fun _ => 0) i ∨
        new_object_points.getD pr.2 (fun _ => 0) i -
            new_object_points.getD pr.1 (fun _ => 0) i = 4 / 100 ∨
        new_object_points.getD pr.1 (fun _ => 0) i -
            new_object_points.getD pr.2 (fun _ => 0) i = 4 / 100) := by
  refine ⟨rfl, rfl, ?_, ?_⟩
  · simp only [new_object_points, List.forall_mem_map, List.forall_mem_cons,
      List.forall_mem_nil, Fin.forall_fin_succ, Fin.forall_fin_one]
    norm_num
  · simp only [point_pairs, List.forall_mem_cons, List.forall_mem_nil,
      differs_in_exactly_one, new_object_points, Fin.forall_fin_succ,
      Fin.forall_fin_one]
    norm_num

/-- Witness for C9 at the concrete first edge (0, 4). -/
theorem reference_shape_cube_witness :
    new_object_points.length = 8 ∧
    ((0, 4) : ℕ × ℕ).1 < 8 ∧ ((0, 4) : ℕ × ℕ).2 < 8 ∧
    differs_in_exactly_one (new_object_points.getD 0 (fun _ => 0))
      (new_object_points.getD 4 (fun _ => 0)) ∧
    ∀ i : Fin 3,
      new_object_points.getD 0 (fun _ => 0) i =
          new_object_points.getD 4 (fun _ => 0) i ∨
      new_object_points.getD 4 (fun _ => 0) i -
          new_object_points.getD 0 (fun _ => 0) i = 4 / 100 ∨
      new_object_points.getD 0 (fun _ => 0) i -
          new_object_points.getD 4 (fun _ => 0) i = 4 / 100 :=
  ⟨reference_shape_cube.1,
   reference_shape_cube.2.2.2 (0, 4) (by decide)⟩

lemma display_loop_all (data : List TriCameraObservation) (keys : List ℤ)
    (h : ∀ k ∈ keys, k ∉ quit_keys) : display_loop data keys = data := by
  induction data generalizing keys with
  | nil => rfl
  | cons obs rest ih =>
    have hhead : keys.headD (-1) ∉ quit_keys := by
      cases keys with
      | nil => decide
      | cons a as => exact h a (by simp)
    have htail : ∀ k ∈ keys.tail, k ∉ quit_keys :=
      fun k hk => h k (List.mem_of_mem_tail hk)
    simp only [display_loop, if_neg hhead, ih keys.tail htail]

/-- C8 counterexample: for the one-frame log whose first and last
timestamps coincide (N = 1, t0 = tN = 1) and no key pressed, the viewer
does not reach a successful run at all: the truncated interval is 0 ms and
the frame-rate computation divides by zero, so no count or rate is
reported and no frame set is visited, refuting the claim as stated for
this log. -/
theorem log_viewer_timing_counterexample :
    ¬ ∃ out : ViewerOutput,
      tricamera_log_viewer [⟨⟨0, 1⟩, ⟨0, 1⟩, ⟨0, 1⟩⟩] [] = Except.ok out := by
  have hv : tricamera_log_viewer [⟨⟨0, 1⟩, ⟨0, 1⟩, ⟨0, 1⟩⟩] [] =
      Except.error ViewerError.zeroDivisionError := by
    norm_num [tricamera_log_viewer, viewer_interval, int_trunc]
  rintro ⟨out, h⟩
  rw [hv] at h
  exact Except.noConfusion h

/-- C8 (amended): for every log with N >= 1 frame sets whose average
per-frame interval, truncated to integer milliseconds, is nonzero, the
interval computed at lines 22-24 equals (tN - t0) / N using camera 0's
timestamp of the first and last frame set, the run succeeds reporting the
frame count N and the frame rate, and when no quit key is pressed the
viewer visits all N frame sets in log order. -/
theorem log_viewer_timing (first : TriCameraObservation)
    (rest : List TriCameraObservation) (keys : List ℤ)
    (hnz : int_trunc (viewer_interval first rest * 1000) ≠ 0)
    (hkeys : ∀ k ∈ keys, k ∉ quit_keys) :
    viewer_interval first rest =
      ((rest.getLastD first).camera0.timestamp - first.camera0.timestamp) /
        ((first :: rest).length : ℚ) ∧
    tricamera_log_viewer (first :: rest) keys =
      Except.ok ⟨(first :: rest).length,
        int_trunc (viewer_interval first rest * 1000),
        1000 / ((int_trunc (viewer_interval first rest * 1000) : ℤ) : ℚ),
        first :: rest⟩ := by
  refine ⟨rfl, ?_⟩
  simp only [tricamera_log_viewer, if_neg hnz, display_loop_all _ _ hkeys]

/-- Witness for C8 (amended): a two-frame log with timestamps 0 and 2
seconds and no key pressed: interval 1 s = 1000 ms, both frames visited. -/
theorem log_viewer_timing_witness :
    viewer_interval ⟨⟨0, 0⟩, ⟨0, 0⟩, ⟨0, 0⟩⟩ [⟨⟨1, 2⟩, ⟨1, 2⟩, ⟨1, 2⟩⟩] =
      ((([⟨⟨1, 2⟩, ⟨1, 2⟩, ⟨1, 2⟩⟩] :
            List TriCameraObservation).getLastD
          ⟨⟨0, 0⟩, ⟨0, 0⟩, ⟨0, 0⟩⟩).camera0.timestamp -
        (⟨⟨0, 0⟩, ⟨0, 0⟩, ⟨0, 0⟩⟩ : TriCameraObservation).camera0.timestamp) /
        (((⟨⟨0, 0⟩, ⟨0, 0⟩, ⟨0, 0⟩⟩ : TriCameraObservation) ::
          ([⟨⟨1, 2⟩, ⟨1, 2⟩, ⟨1, 2⟩⟩] :
            List TriCameraObservation)).length : ℚ) ∧
    tricamera_log_viewer
        [⟨⟨0, 0⟩, ⟨0, 0⟩, ⟨0, 0⟩⟩, ⟨⟨1, 2⟩, ⟨1, 2⟩, ⟨1, 2⟩⟩] [] =
      Except.ok ⟨2,
        int_trunc (viewer_interval ⟨⟨0, 0⟩, ⟨0, 0⟩, ⟨0, 0⟩⟩
          [⟨⟨1, 2⟩, ⟨1, 2⟩, ⟨1, 2⟩⟩] * 1000),
        1000 / ((int_trunc (viewer_interval ⟨⟨0, 0⟩, ⟨0, 0⟩, ⟨0, 0⟩⟩
          [⟨⟨1, 2⟩, ⟨1, 2⟩, ⟨1, 2⟩⟩] * 1000) : ℤ) : ℚ),
        [⟨⟨0, 0⟩, ⟨0, 0⟩, ⟨0, 0⟩⟩, ⟨⟨1, 2⟩, ⟨1, 2⟩, ⟨1, 2⟩⟩]⟩ :=
  log_viewer_timing ⟨⟨0, 0⟩, ⟨0, 0⟩, ⟨0, 0⟩⟩ [⟨⟨1, 2⟩, ⟨1, 2⟩, ⟨1, 2⟩⟩] []
    (by norm_num [viewer_interval, int_trunc]) (by simp)

/-- C10: a log whose first and last camera-0 timestamps are less than one
millisecond apart per frame on average (nonnegative gap, in particular
t_last = t_first) yields a truncated interval of 0 ms, and the viewer
fails with ZeroDivisionError from 1000 / interval before any frame is
displayed; the empty log fails with IndexError when reading the first
timestamp. -/
theorem log_viewer_degenerate_crash (first : TriCameraObservation)
    (rest : List TriCameraObservation) (keys : List ℤ)
    (h0 : 0 ≤ (rest.getLastD first).camera0.timestamp -
      first.camera0.timestamp)
    (h1 : ((rest.getLastD first).camera0.timestamp -
        first.camera0.timestamp) / ((first :: rest).length : ℚ) * 1000 < 1) :
    int_trunc (viewer_interval first rest * 1000) = 0 ∧
    tricamera_log_viewer (first :: rest) keys =
      Except.error ViewerError.zeroDivisionError ∧
    tricamera_log_viewer [] keys = Except.error ViewerError.indexError := by
  have hlen : (0 : ℚ) < (((first :: rest).length : ℕ) : ℚ) := by
    simp only [List.length_cons]
    positivity
  have hx0 : 0 ≤ viewer_interval first rest * 1000 := by
    unfold viewer_interval
    exact mul_nonneg (div_nonneg h0 (le_of_lt hlen)) (by norm_num)
  have htr : int_trunc (viewer_interval first rest * 1000) = 0 := by
    unfold int_trunc
    rw [if_pos hx0]
    refine Int.floor_eq_zero_iff.mpr (Set.mem_Ico.mpr ⟨hx0, ?_⟩)
    unfold viewer_interval
    exact h1
  exact ⟨htr, by simp [tricamera_log_viewer, htr], rfl⟩

/-- Witness for C10: a two-frame log with equal timestamps (1 and 1). -/
theorem log_viewer_degenerate_crash_witness :
    int_trunc (viewer_interval ⟨⟨0, 1⟩, ⟨0, 1⟩, ⟨0, 1⟩⟩
      [⟨⟨1, 1⟩, ⟨1, 1⟩, ⟨1, 1⟩⟩] * 1000) = 0 ∧
    tricamera_log_viewer
        [⟨⟨0, 1⟩, ⟨0, 1⟩, ⟨0, 1⟩⟩, ⟨⟨1, 1⟩, ⟨1, 1⟩, ⟨1, 1⟩⟩] [] =
      Except.error ViewerError.zeroDivisionError ∧
    tricamera_log_viewer [] [] = Except.error ViewerError.indexError :=
  log_viewer_degenerate_crash ⟨⟨0, 1⟩, ⟨0, 1⟩, ⟨0, 1⟩⟩
    [⟨⟨1, 1⟩, ⟨1, 1⟩, ⟨1, 1⟩⟩] [] (by norm_num) (by norm_num)


lemma skewK_mul_self (x y z : ℝ) :
    skewK x y z * skewK x y z =
      !![-(z ^ 2 + y ^ 2), x * y, x * z;
         x * y, -(x ^ 2 + z ^ 2), y * z;
         x * z, y * z, -(x ^ 2 + y ^ 2)] := by
  ext i j
  fin_cases i <;> fin_cases j <;>
    simp [skewK, Matrix.mul_apply, Fin.sum_univ_three] <;> ring

lemma rodriguesR_eq (s c x y z : ℝ) :
    rodriguesR s c x y z =
      !![1 - (1 - c) * (z ^ 2 + y ^ 2), -(s * z) + (1 - c) * (x * y),
           s * y + (1 - c) * (x * z);
         s * z + (1 - c) * (x * y), 1 - (1 - c) * (x ^ 2 + z ^ 2),
           -(s * x) + (1 - c) * (y * z);
         -(s * y) + (1 - c) * (x * z), s * x + (1 - c) * (y * z),
           1 - (1 - c) * (x ^ 2 + y ^ 2)] := by
  rw [rodriguesR, skewK_mul_self]
  ext i j
  fin_cases i <;> fin_cases j <;>
    simp [skewK, Matrix.add_apply, Matrix.smul_apply, Matrix.one_apply] <;>
    ring

lemma rodriguesR_transpose (s c x y z : ℝ) :
    (rodriguesR s c x y z).transpose = rodriguesR (-s) c x y z := by
  rw [rodriguesR_eq, rodriguesR_eq]
  ext i j
  fin_cases i <;> fin_cases j <;> simp

set_option maxHeartbeats 800000 in
lemma rodriguesR_transpose_mul (s c x y z : ℝ) :
    (rodriguesR s c x y z).transpose * rodriguesR s c x y z =
      1 + (2 * (1 - c) - s ^ 2 - (1 - c) ^ 2 * (x ^ 2 + y ^ 2 + z ^ 2)) •
        (skewK x y z * skewK x y z) := by
  rw [rodriguesR_transpose, rodriguesR_eq, rodriguesR_eq, skewK_mul_self]
  ext i j
  fin_cases i <;> fin_cases j <;>
    simp [Matrix.mul_apply, Matrix.one_apply, Matrix.smul_apply,
      Matrix.add_apply, Fin.sum_univ_three] <;>
    ring

lemma rodriguesR_orth (s c x y z : ℝ) (h1 : x ^ 2 + y ^ 2 + z ^ 2 = 1)
    (h2 : s ^ 2 + c ^ 2 = 1) :
    (rodriguesR s c x y z).transpose * rodriguesR s c x y z = 1 := by
  rw [rodriguesR_transpose_mul]
  have hco : 2 * (1 - c) - s ^ 2 - (1 - c) ^ 2 * (x ^ 2 + y ^ 2 + z ^ 2)
      = 0 := by
    linear_combination (-(1 - c) ^ 2) * h1 - h2
  rw [hco, zero_smul, add_zero]

set_option maxHeartbeats 800000 in
lemma rodriguesR_det (s c x y z : ℝ) (h1 : x ^ 2 + y ^ 2 + z ^ 2 = 1)
    (h2 : s ^ 2 + c ^ 2 = 1) : (rodriguesR s c x y z).det = 1 := by
  rw [rodriguesR_eq, Matrix.det_fin_three]
  simp
  linear_combination ((x ^ 2 + y ^ 2 + z ^ 2) * (1 - c) ^ 2) * h1 +
    (x ^ 2 + y ^ 2 + z ^ 2) * h2

/-- C7: for every rotation vector, the matrix produced by the axis-angle
conversion is orthonormal (transpose times itself is the identity) with
determinant +1, and a rotation vector of magnitude 0 (in particular
exactly [0, 0, 0]) yields the identity rotation matrix. -/
theorem rodrigues_rotation_valid (r : Fin 3 → ℝ) :
    (rodrigues_to_matrix r).transpose * rodrigues_to_matrix r = 1 ∧
    (rodrigues_to_matrix r).det = 1 ∧
    (r 0 ^ 2 + r 1 ^ 2 + r 2 ^ 2 = 0 → rodrigues_to_matrix r = 1) := by
  unfold rodrigues_to_matrix
  by_cases hs : Real.sqrt (r 0 ^ 2 + r 1 ^ 2 + r 2 ^ 2) = 0
  · simp [hs]
  · have hnn : (0 : ℝ) ≤ r 0 ^ 2 + r 1 ^ 2 + r 2 ^ 2 := by positivity
    have hn : 0 < r 0 ^ 2 + r 1 ^ 2 + r 2 ^ 2 := by
      rcases eq_or_lt_of_le hnn with h | h
      · exact absurd (by rw [← h, Real.sqrt_zero]) hs
      · exact h
    have hpos : 0 < Real.sqrt (r 0 ^ 2 + r 1 ^ 2 + r 2 ^ 2) :=
      Real.sqrt_pos.mpr hn
    have hsq : Real.sqrt (r 0 ^ 2 + r 1 ^ 2 + r 2 ^ 2) ^ 2 =
        r 0 ^ 2 + r 1 ^ 2 + r 2 ^ 2 := Real.sq_sqrt hnn
    have h1 : (r 0 / Real.sqrt (r 0 ^ 2 + r 1 ^ 2 + r 2 ^ 2)) ^ 2 +
        (r 1 / Real.sqrt (r 0 ^ 2 + r 1 ^ 2 + r 2 ^ 2)) ^ 2 +
        (r 2 / Real.sqrt (r 0 ^ 2 + r 1 ^ 2 + r 2 ^ 2)) ^ 2 = 1 := by
      rw [show (r 0 / Real.sqrt (r 0 ^ 2 + r 1 ^ 2 + r 2 ^ 2)) ^ 2 +
          (r 1 / Real.sqrt (r 0 ^ 2 + r 1 ^ 2 + r 2 ^ 2)) ^ 2 +
          (r 2 / Real.sqrt (r 0 ^ 2 + r 1 ^ 2 + r 2 ^ 2)) ^ 2 =
          (r 0 ^ 2 + r 1 ^ 2 + r 2 ^ 2) /
            Real.sqrt (r 0 ^ 2 + r 1 ^ 2 + r 2 ^ 2) ^ 2 from by ring, hsq]
      exact div_self (ne_of_gt hn)
    have h2 : Real.sin (Real.sqrt (r 0 ^ 2 + r 1 ^ 2 + r 2 ^ 2)) ^ 2 +
        Real.cos (Real.sqrt (r 0 ^ 2 + r 1 ^ 2 + r 2 ^ 2)) ^ 2 = 1 :=
      Real.sin_sq_add_cos_sq _
    rw [if_neg hs]
    exact ⟨rodriguesR_orth _ _ _ _ _ h1 h2, rodriguesR_det _ _ _ _ _ h1 h2,
      fun h0 => absurd h0 (ne_of_gt hn)⟩

/-- Witness for C7 at the zero rotation vector. -/
theorem rodrigues_rotation_valid_witness :
    rodrigues_to_matrix (fun _ => (0 : ℝ)) = 1 :=
  (rodrigues_rotation_valid (fun _ => (0 : ℝ))).2.2 (by norm_num)

/-- C2: for every rotation vector and translation vector returned by the
board handler, the assembled 4x4 projection matrix holds the rotation
matrix in rows 0-2, cols 0-2, the translation vector in rows 0-2 of
col 3, and its bottom row is exactly [0, 0, 0, 1]; consequently applying
it to the homogeneous point [0, 0, 0, 1] yields [t0, t1, t2, 1]. -/
theorem projection_matrix_assembly (rvec tvec : Fin 3 → ℝ) :
    (∀ i j : Fin 3, projection_matrix rvec tvec i.castSucc j.castSucc =
      rodrigues_to_matrix rvec i j) ∧
    (∀ i : Fin 3, projection_matrix rvec tvec i.castSucc 3 = tvec i) ∧
    (∀ j : Fin 4, projection_matrix rvec tvec 3 j = ![(0 : ℝ), 0, 0, 1] j) ∧
    (projection_matrix rvec tvec).mulVec ![0, 0, 0, 1] =
      ![tvec 0, tvec 1, tvec 2, 1] := by
  refine ⟨?_, ?_, ?_, ?_⟩
  · intro i j
    fin_cases i <;> fin_cases j <;>
      simp [projection_matrix, assemble_projection,
        show (Fin.castSucc 0 : Fin 4) = 0 from rfl,
        show (Fin.castSucc 1 : Fin 4) = 1 from rfl,
        show (Fin.castSucc 2 : Fin 4) = 2 from rfl]
  · intro i
    fin_cases i <;>
      simp [projection_matrix, assemble_projection,
        show (Fin.castSucc 0 : Fin 4) = 0 from rfl,
        show (Fin.castSucc 1 : Fin 4) = 1 from rfl,
        show (Fin.castSucc 2 : Fin 4) = 2 from rfl]
  · intro j
    fin_cases j <;> simp [projection_matrix, assemble_projection]
  · funext i
    fin_cases i <;>
      simp [projection_matrix, assemble_projection, Matrix.mulVec,
        Matrix.dotProduct, Fin.sum_univ_four]

/-- C3: the record the extrinsic stage writes is the loaded record with a
projection_matrix block (the flattened 4x4 projection matrix) attached:
the camera_matrix and distortion_coefficients entries are unchanged and no
key other than projection_matrix is modified or removed. -/
theorem calibrate_extrinsic_frame
    (loaded : List (String × MatrixBlock ℝ)) (rvec tvec : Fin 3 → ℝ)
    (k : String) (hk : k ≠ ("projection_matrix")) :
    dlookup (calibrate_extrinsic_record loaded rvec tvec) k =
      dlookup loaded k ∧
    dlookup (calibrate_extrinsic_record loaded rvec tvec) ("camera_matrix") =
      dlookup loaded ("camera_matrix") ∧
    dlookup (calibrate_extrinsic_record loaded rvec tvec)
        ("distortion_coefficients") =
      dlookup loaded ("distortion_coefficients") ∧
    dlookup (calibrate_extrinsic_record loaded rvec tvec)
        ("projection_matrix") =
      some ⟨4, 4, matFlatten4 (projection_matrix rvec tvec)⟩ :=
  ⟨dlookup_dictSet_ne loaded ("projection_matrix") k
     ⟨4, 4, matFlatten4 (projection_matrix rvec tvec)⟩ hk,
   dlookup_dictSet_ne loaded ("projection_matrix") ("camera_matrix")
     ⟨4, 4, matFlatten4 (projection_matrix rvec tvec)⟩ (by decide),
   dlookup_dictSet_ne loaded ("projection_matrix")
     ("distortion_coefficients")
     ⟨4, 4, matFlatten4 (projection_matrix rvec tvec)⟩ (by decide),
   dlookup_dictSet_self loaded ("projection_matrix")
     ⟨4, 4, matFlatten4 (projection_matrix rvec tvec)⟩⟩

/-- Witness for C3 at a concrete two-entry intrinsic record, the zero pose
and the key camera_matrix. -/
theorem calibrate_extrinsic_frame_witness :
    dlookup (calibrate_extrinsic_record
        [(("camera_matrix"), ⟨3, 3, [1, 0, 0, 0, 1, 0, 0, 0, 1]⟩),
         (("distortion_coefficients"), ⟨1, 5, [0, 0, 0, 0, 0]⟩)]
        (fun _ => 0) (fun _ => 0)) ("camera_matrix") =
      dlookup
        [(("camera_matrix"), ⟨3, 3, [1, 0, 0, 0, 1, 0, 0, 0, 1]⟩),
         (("distortion_coefficients"), ⟨1, 5, [0, 0, 0, 0, 0]⟩)]
        ("camera_matrix") ∧
    dlookup (calibrate_extrinsic_record
        [(("camera_matrix"), ⟨3, 3, [1, 0, 0, 0, 1, 0, 0, 0, 1]⟩),
         (("distortion_coefficients"), ⟨1, 5, [0, 0, 0, 0, 0]⟩)]
        (fun _ => 0) (fun _ => 0)) ("camera_matrix") =
      dlookup
        [(("camera_matrix"), ⟨3, 3, [1, 0, 0, 0, 1, 0, 0, 0, 1]⟩),
         (("distortion_coefficients"), ⟨1, 5, [0, 0, 0, 0, 0]⟩)]
        ("camera_matrix") ∧
    dlookup (calibrate_extrinsic_record
        [(("camera_matrix"), ⟨3, 3, [1, 0, 0, 0, 1, 0, 0, 0, 1]⟩),
         (("distortion_coefficients"), ⟨1, 5, [0, 0, 0, 0, 0]⟩)]
        (fun _ => 0) (fun _ => 0)) ("distortion_coefficients") =
      dlookup
        [(("camera_matrix"), ⟨3, 3, [1, 0, 0, 0, 1, 0, 0, 0, 1]⟩),
         (("distortion_coefficients"), ⟨1, 5, [0, 0, 0, 0, 0]⟩)]
        ("distortion_coefficients") ∧
    dlookup (calibrate_extrinsic_record
        [(("camera_matrix"), ⟨3, 3, [1, 0, 0, 0, 1, 0, 0, 0, 1]⟩),
         (("distortion_coefficients"), ⟨1, 5, [0, 0, 0, 0, 0]⟩)]
        (fun _ => 0) (fun _ => 0)) ("projection_matrix") =
      some ⟨4, 4, matFlatten4 (projection_matrix
        (fun _ => 0) (fun _ => 0))⟩ :=
  calibrate_extrinsic_frame
    [(("camera_matrix"), ⟨3, 3, [1, 0, 0, 0, 1, 0, 0, 0, 1]⟩),
     (("distortion_coefficients"), ⟨1, 5, [0, 0, 0, 0, 0]⟩)]
    (fun _ => 0) (fun _ => 0) ("camera_matrix") (by decide)
